import Mathlib

/-!
Verification of the decision logic of two data-ingestion scripts:
the video-type classifier of `fetch-videos.py` and the
gazetteer/population join of `import-to-sqlite.py`.

The Python functions are shallowly embedded: dictionaries become
structures with `Option` fields for optional keys, Python truthiness
tests on integers become explicit `!= 0` tests, Python float division
`height / width` is modelled by exact division in `ℚ`, and the SQLite
`INSERT OR REPLACE` upsert becomes a delete-then-append operation on a
list of rows.
-/

set_option autoImplicit false

/-! ### Substring containment (Python's `pat in s`) -/

/-- `charsLeadWith pat s` is true when `pat` is an initial run of `s`. -/
def charsLeadWith : List Char → List Char → Bool
  | [], _ => true
  | _ :: _, [] => false
  | a :: as, b :: bs => a == b && charsLeadWith as bs

/-- `charsContain pat s` is true when `pat` occurs contiguously in `s`. -/
def charsContain (pat : List Char) : List Char → Bool
  | [] => charsLeadWith pat []
  | b :: bs => charsLeadWith pat (b :: bs) || charsContain pat bs

/-- `strContains s pat` models Python's substring test `pat in s`. -/
def strContains (s pat : String) : Bool :=
  charsContain pat.data s.data

/-! ### The video metadata record and the classifier

Embedding of `determine_video_type` from
`src/individuals/chicks/youtube/fetch-videos.py` (lines 168-211).
Only the fields the classifier reads are modelled; a missing dictionary
key is `none`/`false`.
-/

/-- The fields of a `video_data` dictionary that `determine_video_type`
reads.  `from_shorts_tab` embeds the key `_from_shorts_tab` (absent keys
read as `False` via `.get`). -/
structure VideoData where
  from_shorts_tab : Bool
  webpage_url : Option String
  duration : Option Int
  width : Option Int
  height : Option Int

/-- Embedding of `determine_video_type`.  Returns the source's string
literals: `"short"` or `"video"` (the spec's Category `standard` is the
source literal `"video"`).  Python truthiness of an `int` is `!= 0`;
`height / width > 1.0` is exact division in `ℚ`. -/
def determine_video_type (video_data : VideoData) : String :=
  if video_data.from_shorts_tab then "short" else
  let url := video_data.webpage_url.getD ""
  let duration := video_data.duration.getD 0
  let width := video_data.width
  let height := video_data.height
  if url != "" && strContains url "/shorts/" then "short" else
  let is_vertical : Bool :=
    match width, height with
    | some w, some h =>
      if w != 0 && h != 0 && decide (w > 0) then
        decide ((h : ℚ) / (w : ℚ) > 1.0)
      else false
    | _, _ => false
  if is_vertical && duration != 0 && decide (0 < duration) && decide (duration ≤ 60) then
    "short"
  else "video"

/-- The condition of classification rule 3 as the spec states it: width
and height both present with positive width, portrait aspect ratio
(`height / width > 1.0`), and duration present in `(0, 60]`. -/
def portraitShortConds (v : VideoData) : Bool :=
  match v.width, v.height, v.duration with
  | some w, some h, some d =>
    decide (0 < w) && decide ((h : ℚ) / (w : ℚ) > 1.0) &&
      decide (0 < d) && decide (d ≤ 60)
  | _, _, _ => false

/-! ### The gazetteer/population join

Embedding of `load_population` (lines 83-116) and the merge loop of
`import_state_data` (lines 185-224) from
`src/us-cities/scripts/import-to-sqlite.py`.  The SQLite `cities` table
with its `UNIQUE(name, state_abbrev)` constraint and `INSERT OR REPLACE`
statements is modelled as a list of rows where an insert first deletes
every row with the same natural key and then appends the new row, which
is the observable behaviour of SQLite's REPLACE conflict resolution.
Python `float` columns are carried opaquely as `ℚ`; the join never
computes with them.
-/

/-- Decimal digit value of a character, `none` for a non-digit. -/
def digitVal (c : Char) : Option Nat :=
  if '0' ≤ c ∧ c ≤ '9' then some (c.toNat - '0'.toNat) else none

/-- Digits after the first one of a Python integer literal: decimal
digits with single underscores allowed between digits only. -/
def parseDigitsCore : Nat → List Char → Option Nat
  | acc, [] => some acc
  | _, ['_'] => none
  | acc, '_' :: c :: cs =>
    match digitVal c with
    | some n => parseDigitsCore (acc * 10 + n) cs
    | none => none
  | acc, c :: cs =>
    match digitVal c with
    | some n => parseDigitsCore (acc * 10 + n) cs
    | none => none

/-- A nonempty digit run (underscore separators allowed after the first
digit), as accepted by Python's `int`. -/
def parseDigits : List Char → Option Nat
  | [] => none
  | c :: cs =>
    match digitVal c with
    | some n => parseDigitsCore n cs
    | none => none

/-- Python's `int(s)` on a string, returning `none` where Python raises
`ValueError`: surrounding whitespace is stripped, then an optional sign
is followed by a nonempty digit run. -/
def parseIntOpt (s : String) : Option Int :=
  let cs := ((s.data.dropWhile Char.isWhitespace).reverse.dropWhile Char.isWhitespace).reverse
  match cs with
  | '-' :: rest => (parseDigits rest).map (fun n => -(n : Int))
  | '+' :: rest => (parseDigits rest).map (fun n => (n : Int))
  | _ => (parseDigits cs).map (fun n => (n : Int))

/-- The columns of a population CSV row that `load_population` reads
(all CSV fields are strings). -/
structure PopRow where
  SUMLEV : String
  PLACE : String
  NAME : String
  CENSUS2010POP : String
  POPESTIMATE2020 : String
deriving DecidableEq

/-- A value of the dictionary built by `load_population`. -/
structure PopEntry where
  name : String
  pop_2010 : Option Int
  pop_2020 : Option Int
  state_abbrev : String
deriving DecidableEq

/-- Embedding of `load_population`: rows with `SUMLEV != '162'` are
skipped, the rest keyed by their `PLACE` code (later rows override
earlier ones); unparseable population figures become `none`. -/
def load_population (rows : List PopRow) (state_abbrev : String) :
    String → Option PopEntry :=
  rows.foldl
    (fun places row =>
      if row.SUMLEV != "162" then places
      else fun place_code =>
        if place_code = row.PLACE then
          some { name := row.NAME
                 pop_2010 := parseIntOpt row.CENSUS2010POP
                 pop_2020 := parseIntOpt row.POPESTIMATE2020
                 state_abbrev := state_abbrev }
        else places place_code)
    (fun _ => none)

/-- A value of the dictionary built by `load_gazetteer` (float columns
carried as exact rationals). -/
structure GazPlace where
  name : String
  latitude : ℚ
  longitude : ℚ
  land_area_sqmi : ℚ
  water_area_sqmi : ℚ
  ansi_code : String
deriving DecidableEq

/-- A row of the `cities` table (the generated `id` column is omitted;
the natural key is `(name, state_abbrev)`). -/
structure CityRow where
  name : String
  state_abbrev : String
  latitude : ℚ
  longitude : ℚ
  pop_2010 : Option Int
  pop_2020 : Option Int
  land_area_sqmi : ℚ
  water_area_sqmi : ℚ
  ansi_code : String
  geoid : String
deriving DecidableEq

/-- Python `geoid[-5:]`: the final 5 characters (the whole string when
it is shorter than 5). -/
def placeCodeOf (geoid : String) : String :=
  String.mk (geoid.data.drop (geoid.data.length - 5))

/-- The natural key of a `cities` row, per `UNIQUE(name, state_abbrev)`. -/
def keyOf (r : CityRow) : String × String :=
  (r.name, r.state_abbrev)

/-- The row inserted for a gazetteer/population hit: the VALUES tuple of
the `INSERT OR REPLACE INTO cities` statement. -/
def joinedRow (state_abbrev geoid : String) (gaz_place : GazPlace)
    (pop_place : PopEntry) : CityRow :=
  { name := gaz_place.name
    state_abbrev := state_abbrev
    latitude := gaz_place.latitude
    longitude := gaz_place.longitude
    pop_2010 := pop_place.pop_2010
    pop_2020 := pop_place.pop_2020
    land_area_sqmi := gaz_place.land_area_sqmi
    water_area_sqmi := gaz_place.water_area_sqmi
    ansi_code := gaz_place.ansi_code
    geoid := geoid }

/-- SQLite `INSERT OR REPLACE` on a table with a unique natural key:
delete every row that collides on `(name, state_abbrev)`, then append
the new row. -/
def insertOrReplace (table : List CityRow) (row : CityRow) : List CityRow :=
  table.filter (fun r => decide (¬(r.name = row.name ∧ r.state_abbrev = row.state_abbrev)))
    ++ [row]

/-- Embedding of the merge-and-insert loop of `import_state_data`:
returns `(inserted, skipped, table)` after folding over the gazetteer
dictionary's entries in order. -/
def import_state_data (pop_data : String → Option PopEntry) (state_abbrev : String) :
    List (String × GazPlace) → List CityRow → Nat × Nat × List CityRow
  | [], table => (0, 0, table)
  | (geoid, gaz_place) :: rest, table =>
    match pop_data (placeCodeOf geoid) with
    | some pop_place =>
      let r := import_state_data pop_data state_abbrev rest
        (insertOrReplace table (joinedRow state_abbrev geoid gaz_place pop_place))
      (r.1 + 1, r.2.1, r.2.2)
    | none =>
      let r := import_state_data pop_data state_abbrev rest table
      (r.1, r.2.1 + 1, r.2.2)

/-- The joined rows of the gazetteer entries that hit the population
dictionary, in pass order. -/
def joinedRows (pop_data : String → Option PopEntry) (state_abbrev : String) :
    List (String × GazPlace) → List CityRow
  | [] => []
  | (geoid, gaz_place) :: rest =>
    match pop_data (placeCodeOf geoid) with
    | some pop_place =>
      joinedRow state_abbrev geoid gaz_place pop_place :: joinedRows pop_data state_abbrev rest
    | none => joinedRows pop_data state_abbrev rest

/-! ### Concrete records used by the witness theorems -/

/-- A record flagged as enumerated from the shorts listing but with
contradictory landscape dimensions and a long duration. -/
def vFlaggedLandscape : VideoData :=
  ⟨true, some "https://www.youtube.com/watch?v=dQw4w9WgXcQ", some 7200, some 1920, some 1080⟩

/-- An unflagged landscape record whose URL contains the shorts segment. -/
def vShortsUrl : VideoData :=
  ⟨false, some "https://www.youtube.com/shorts/dQw4w9WgXcQ", some 7200, some 1920, some 1080⟩

/-- The spec's example record: width 1920, height 1080, duration 30. -/
def vLandscape30 : VideoData :=
  ⟨false, some "https://www.youtube.com/watch?v=dQw4w9WgXcQ", some 30, some 1920, some 1080⟩

/-- A portrait record at the duration boundary 60. -/
def vPortrait60 : VideoData :=
  ⟨false, some "https://www.youtube.com/watch?v=dQw4w9WgXcQ", some 60, some 1080, some 1920⟩

/-- A portrait record just past the duration boundary, at 61. -/
def vPortrait61 : VideoData :=
  ⟨false, some "https://www.youtube.com/watch?v=dQw4w9WgXcQ", some 61, some 1080, some 1920⟩

/-- A portrait record with no duration field. -/
def vNoDuration : VideoData :=
  ⟨false, some "https://www.youtube.com/watch?v=dQw4w9WgXcQ", none, some 1080, some 1920⟩

/-- A population dictionary entry used by the join witnesses. -/
def popEntryFixture : PopEntry :=
  ⟨"Testville town", some 1200, some 1250, "CA"⟩

/-- A one-entry population dictionary keyed by place code `01234`. -/
def popFixture : String → Option PopEntry :=
  fun place_code => if place_code = "01234" then some popEntryFixture else none

/-- A gazetteer dictionary value used by the join witnesses. -/
def gazFixture : GazPlace :=
  ⟨"Testville town", 37, -122, 5, 1, "02404446"⟩

/-- A population CSV row whose 2010 figure `(X)` is not an integer. -/
def popRowFixture : PopRow :=
  ⟨"162", "01234", "Testville town", "(X)", "1250"⟩

/-! ### Classifier lemmas -/

/-- For positive width the portrait test `height / width > 1.0` is the
integer comparison `width < height`. -/
lemma ratio_gt_one_iff (w h : Int) (hw : 0 < w) :
    ((h:ℚ)/(w:ℚ) > 1.0) ↔ w < h := by
  have h1 : (1.0 : ℚ) = 1 := by norm_num
  have hw' : (0:ℚ) < (w:ℚ) := by exact_mod_cast hw
  rw [gt_iff_lt, h1, one_lt_div hw']
  exact_mod_cast Iff.rfl

/-- Integer-only form of `portraitShortConds`, used to evaluate it on
concrete records. -/
lemma portraitShortConds_eq_int (v : VideoData) :
    portraitShortConds v =
      (match v.width, v.height, v.duration with
       | some w, some h, some d =>
         decide (0 < w) && decide (w < h) && decide (0 < d) && decide (d ≤ 60)
       | _, _, _ => false) := by
  obtain ⟨f, u, dur, wd, ht⟩ := v
  unfold portraitShortConds
  dsimp only
  rcases wd with _ | w <;> rcases ht with _ | h <;> rcases dur with _ | d <;> try rfl
  dsimp only
  by_cases hw : (0:Int) < w
  · rw [decide_eq_decide.mpr (ratio_gt_one_iff w h hw)]
  · rw [decide_eq_false hw]
    simp

/-- The classifier's `is_vertical`-and-duration chain coincides with the
spec's rule-3 condition on present width, height and duration. -/
lemma vertical_chain_eq (w h d : Int) :
    ((if w != 0 && h != 0 && decide (w > 0) then decide ((h:ℚ)/(w:ℚ) > 1.0) else false)
        && (d != 0) && decide (0 < d) && decide (d ≤ 60))
    = (decide (0 < w) && decide ((h:ℚ)/(w:ℚ) > 1.0) && decide (0 < d) && decide (d ≤ 60)) := by
  rw [Bool.eq_iff_iff]
  simp only [Bool.and_eq_true, bne_iff_ne, ne_eq, decide_eq_true_eq]
  constructor
  · rintro ⟨⟨⟨hiv, hd0⟩, hd1⟩, hd2⟩
    split at hiv
    · next hc =>
      simp only [decide_eq_true_eq] at hiv
      exact ⟨⟨⟨hc.2, hiv⟩, hd1⟩, hd2⟩
    · exact absurd hiv (by simp)
  · rintro ⟨⟨⟨hw, hA⟩, hd1⟩, hd2⟩
    have hh : ¬ h = 0 := by
      intro h0
      rw [h0] at hA
      norm_num at hA
    rw [if_pos (show (¬w = 0 ∧ ¬h = 0) ∧ w > 0 from ⟨⟨by omega, hh⟩, hw⟩)]
    exact ⟨⟨⟨decide_eq_true hA, by omega⟩, hd1⟩, hd2⟩

/-- Once rules 1 and 2 fail, the classifier is decided by the rule-3
condition. -/
lemma determine_video_type_char (v : VideoData)
    (hflag : v.from_shorts_tab = false)
    (hurl : strContains (v.webpage_url.getD "") "/shorts/" = false) :
    determine_video_type v = if portraitShortConds v then "short" else "video" := by
  obtain ⟨f, u, dur, wd, ht⟩ := v
  simp only at hflag hurl
  subst hflag
  unfold determine_video_type portraitShortConds
  simp only [Bool.false_eq_true, if_false, hurl, Bool.and_false]
  dsimp only
  rcases wd with _ | w <;> rcases ht with _ | h <;> rcases dur with _ | d <;>
    dsimp only <;>
    try simp only [Option.getD_none, Option.getD_some, bne_self_eq_false,
      Bool.and_false, Bool.false_and] <;>
    try rfl
  simp only [vertical_chain_eq]

/-- The classifier returns one of the two category literals on every
record. -/
lemma determine_video_type_total (v : VideoData) :
    determine_video_type v = "short" ∨ determine_video_type v = "video" := by
  simp only [determine_video_type]
  split_ifs <;> first | exact Or.inl rfl | exact Or.inr rfl

/-! ### Join lemmas -/

/-- The inserted count is the number of gazetteer entries that hit the
population dictionary, independently of the starting table. -/
lemma isd_inserted (pop_data : String → Option PopEntry) (ab : String)
    (gaz : List (String × GazPlace)) :
    ∀ t, (import_state_data pop_data ab gaz t).1 = (joinedRows pop_data ab gaz).length := by
  induction gaz with
  | nil => intro t; rfl
  | cons e rest ih =>
    intro t
    obtain ⟨geoid, g⟩ := e
    unfold import_state_data joinedRows
    cases hp : pop_data (placeCodeOf geoid) <;> simp [hp, ih]

/-- Each gazetteer entry is counted exactly once, as inserted or as
skipped. -/
lemma isd_conservation (pop_data : String → Option PopEntry) (ab : String)
    (gaz : List (String × GazPlace)) :
    ∀ t, (import_state_data pop_data ab gaz t).1 + (import_state_data pop_data ab gaz t).2.1
      = gaz.length := by
  induction gaz with
  | nil => intro t; rfl
  | cons e rest ih =>
    intro t
    obtain ⟨geoid, g⟩ := e
    unfold import_state_data
    cases hp : pop_data (placeCodeOf geoid) with
    | none =>
      dsimp only
      have := ih t
      simp only [List.length_cons]
      omega
    | some p =>
      dsimp only
      have := ih (insertOrReplace t (joinedRow ab geoid g p))
      simp only [List.length_cons]
      omega

/-- The final table is the fold of the upsert over the joined rows. -/
lemma isd_table (pop_data : String → Option PopEntry) (ab : String)
    (gaz : List (String × GazPlace)) :
    ∀ t, (import_state_data pop_data ab gaz t).2.2
      = (joinedRows pop_data ab gaz).foldl insertOrReplace t := by
  induction gaz with
  | nil => intro t; rfl
  | cons e rest ih =>
    intro t
    obtain ⟨geoid, g⟩ := e
    unfold import_state_data joinedRows
    cases hp : pop_data (placeCodeOf geoid) with
    | none => dsimp only; exact ih t
    | some p => dsimp only; exact ih (insertOrReplace t (joinedRow ab geoid g p))

/-- Surviving a replace for `row` and avoiding the keys `ks` is the same
as avoiding the keys `keyOf row :: ks`. -/
lemma ior_filter_key (r row : CityRow) (ks : List (String × String)) :
    (decide (keyOf r ∉ ks)
        && decide (¬(r.name = row.name ∧ r.state_abbrev = row.state_abbrev)))
      = decide (keyOf r ∉ keyOf row :: ks) := by
  rw [Bool.eq_iff_iff]
  simp only [Bool.and_eq_true, decide_eq_true_eq, keyOf, List.mem_cons, not_or,
    Prod.mk.injEq]
  tauto

/-- Folding the upsert from any starting table keeps exactly the
starting rows whose key is never re-inserted, followed by the fold from
the empty table. -/
lemma foldl_ior_eq (rows : List CityRow) :
    ∀ t, rows.foldl insertOrReplace t
      = t.filter (fun r => decide (keyOf r ∉ rows.map keyOf))
          ++ rows.foldl insertOrReplace [] := by
  induction rows with
  | nil =>
    intro t
    simp
  | cons row rows ih =>
    intro t
    rw [List.foldl_cons, List.foldl_cons, ih (insertOrReplace t row),
      show insertOrReplace [] row = [row] from rfl, ih [row]]
    unfold insertOrReplace
    rw [List.filter_append, List.append_assoc]
    congr 1
    rw [List.filter_filter]
    apply List.filter_congr
    intro a _
    rw [List.map_cons]
    exact ior_filter_key a row (rows.map keyOf)

/-- Every row of the folded table comes from the start table or from an
inserted key. -/
lemma mem_foldl_ior (rows : List CityRow) :
    ∀ t r, r ∈ rows.foldl insertOrReplace t → r ∈ t ∨ keyOf r ∈ rows.map keyOf := by
  induction rows with
  | nil =>
    intro t r hr
    exact Or.inl hr
  | cons row rows ih =>
    intro t r hr
    rw [List.foldl_cons] at hr
    rcases ih (insertOrReplace t row) r hr with hmem | hkey
    · unfold insertOrReplace at hmem
      rcases List.mem_append.mp hmem with hf | hs
      · exact Or.inl (List.mem_of_mem_filter hf)
      · rw [List.mem_singleton] at hs
        subst hs
        exact Or.inr (List.mem_cons_self _ _)
    · exact Or.inr (List.mem_cons_of_mem _ hkey)

/-- One upsert keeps the natural keys of the table distinct. -/
lemma ior_keys_nodup (t : List CityRow) (row : CityRow)
    (h : (t.map keyOf).Nodup) : ((insertOrReplace t row).map keyOf).Nodup := by
  unfold insertOrReplace
  rw [List.map_append, List.nodup_append]
  refine ⟨((List.filter_sublist t).map keyOf).nodup h, List.nodup_singleton _, ?_⟩
  intro k hk hk1
  rw [List.map_singleton, List.mem_singleton] at hk1
  subst hk1
  rcases List.mem_map.mp hk with ⟨r, hrmem, hrk⟩
  have hpred := List.of_mem_filter hrmem
  rw [decide_eq_true_eq] at hpred
  apply hpred
  have := congrArg Prod.fst hrk
  have := congrArg Prod.snd hrk
  exact ⟨by assumption, by assumption⟩

/-- Folding upserts keeps the natural keys of the table distinct. -/
lemma foldl_ior_keys_nodup (rows : List CityRow) :
    ∀ t, (t.map keyOf).Nodup → ((rows.foldl insertOrReplace t).map keyOf).Nodup := by
  induction rows with
  | nil => intro t h; exact h
  | cons row rows ih =>
    intro t h
    rw [List.foldl_cons]
    exact ih _ (ior_keys_nodup t row h)

/-- The joined rows of concatenated gazetteer segments concatenate. -/
lemma joinedRows_append (pop_data : String → Option PopEntry) (ab : String)
    (xs ys : List (String × GazPlace)) :
    joinedRows pop_data ab (xs ++ ys)
      = joinedRows pop_data ab xs ++ joinedRows pop_data ab ys := by
  induction xs with
  | nil => rfl
  | cons e rest ih =>
    obtain ⟨geoid, g⟩ := e
    rw [List.cons_append]
    cases hp : pop_data (placeCodeOf geoid) <;>
      simp only [joinedRows, hp, ih, List.cons_append]

/-- The dictionary entry loaded for the last population row, keyed by
its place code, carries the parse results of both population figures. -/
lemma load_population_last (rows : List PopRow) (ab : String) (r : PopRow)
    (hsum : r.SUMLEV = "162") :
    load_population (rows ++ [r]) ab r.PLACE
      = some ⟨r.NAME, parseIntOpt r.CENSUS2010POP, parseIntOpt r.POPESTIMATE2020, ab⟩ := by
  unfold load_population
  rw [List.foldl_append, List.foldl_cons, List.foldl_nil]
  have hb : (r.SUMLEV != "162") = false := by
    rw [hsum]
    rfl
  rw [hb]
  simp

/-! ### The claims -/

/-- Claim C1: for every Metadata Record whose shorts-listing flag is
set, the classifier returns `short`, regardless of every other field. -/
theorem spec_C1 (v : VideoData) (hflag : v.from_shorts_tab = true) :
    determine_video_type v = "short" := by
  unfold determine_video_type
  rw [hflag]
  rfl

/-- Witness for C1 at a flagged record with contradictory URL, duration
and landscape aspect ratio. -/
theorem spec_C1_witness :
    vFlaggedLandscape.from_shorts_tab = true ∧
      determine_video_type vFlaggedLandscape = "short" :=
  ⟨rfl, spec_C1 vFlaggedLandscape rfl⟩

/-- Claim C2: a record matching none of rules 1-3 (flag unset, URL
without the shorts segment, rule-3 condition false) is classified
`standard`, which the source encodes as the literal `"video"`. -/
theorem spec_C2 (v : VideoData) (hflag : v.from_shorts_tab = false)
    (hurl : strContains (v.webpage_url.getD "") "/shorts/" = false)
    (hcond : portraitShortConds v = false) :
    determine_video_type v = "video" := by
  rw [determine_video_type_char v hflag hurl, hcond]
  rfl

/-- Witness for C2 at the spec's example record with width 1920, height
1080 and duration 30. -/
theorem spec_C2_witness :
    vLandscape30.from_shorts_tab = false ∧
      strContains (vLandscape30.webpage_url.getD "") "/shorts/" = false ∧
      portraitShortConds vLandscape30 = false ∧
      determine_video_type vLandscape30 = "video" :=
  ⟨rfl, by decide, by simp [portraitShortConds_eq_int, vLandscape30],
    spec_C2 vLandscape30 rfl (by decide) (by simp [portraitShortConds_eq_int, vLandscape30])⟩

/-- Claim C3: with the flag unset and no shorts URL segment, the
classifier returns `short` exactly when width and height are present
with positive width, portrait ratio `height / width > 1.0`, and a
present duration in `(0, 60]` — the condition `portraitShortConds`. -/
theorem spec_C3 (v : VideoData) (hflag : v.from_shorts_tab = false)
    (hurl : strContains (v.webpage_url.getD "") "/shorts/" = false) :
    determine_video_type v = "short" ↔ portraitShortConds v = true := by
  rw [determine_video_type_char v hflag hurl]
  cases hpc : portraitShortConds v <;> simp

/-- Witness for C3 at the duration boundary: 60 seconds is `short`,
61 seconds is not. -/
theorem spec_C3_witness :
    vPortrait60.from_shorts_tab = false ∧
      strContains (vPortrait60.webpage_url.getD "") "/shorts/" = false ∧
      determine_video_type vPortrait60 = "short" ∧
      ¬ determine_video_type vPortrait61 = "short" :=
  ⟨rfl, by decide,
    (spec_C3 vPortrait60 rfl (by decide)).mpr (by simp [portraitShortConds_eq_int, vPortrait60]),
    fun hs => absurd ((spec_C3 vPortrait61 rfl (by decide)).mp hs)
      (by simp [portraitShortConds_eq_int, vPortrait61])⟩

/-- Claim C4: with the flag unset, a record whose source URL contains
the literal `/shorts/` segment is classified `short`, independent of
duration, width and height. -/
theorem spec_C4 (v : VideoData) (hflag : v.from_shorts_tab = false)
    (hurl : strContains (v.webpage_url.getD "") "/shorts/" = true) :
    determine_video_type v = "short" := by
  have hne : (v.webpage_url.getD "" != "") = true := by
    rw [bne_iff_ne]
    intro he
    rw [he] at hurl
    exact absurd hurl (by decide)
  simp only [determine_video_type, hflag, Bool.false_eq_true, if_false, hurl, hne,
    Bool.and_self, if_true]

/-- Witness for C4 at an unflagged long landscape record with a shorts
URL. -/
theorem spec_C4_witness :
    vShortsUrl.from_shorts_tab = false ∧
      strContains (vShortsUrl.webpage_url.getD "") "/shorts/" = true ∧
      determine_video_type vShortsUrl = "short" :=
  ⟨rfl, by decide, spec_C4 vShortsUrl rfl (by decide)⟩

/-- Claim C9: on a record with missing duration, width or height, or
with width 0, the classifier still returns one of the two categories
(it is total), and when rules 1 and 2 also fail it falls through to
rule 4 and returns `standard` (source literal `"video"`). -/
theorem spec_C9 (v : VideoData)
    (hmiss : v.duration = none ∨ v.width = none ∨ v.height = none ∨ v.width = some 0) :
    (determine_video_type v = "short" ∨ determine_video_type v = "video") ∧
      (v.from_shorts_tab = false →
        strContains (v.webpage_url.getD "") "/shorts/" = false →
        determine_video_type v = "video") := by
  refine ⟨determine_video_type_total v, fun hflag hurl => ?_⟩
  rw [determine_video_type_char v hflag hurl]
  have hc : portraitShortConds v = false := by
    rw [portraitShortConds_eq_int]
    obtain ⟨f, u, dur, wd, ht⟩ := v
    simp only at hmiss
    rcases wd with _ | w <;> rcases ht with _ | h <;> rcases dur with _ | d <;> try rfl
    · simp only [reduceCtorEq, Option.some.injEq, false_or, or_false] at hmiss
      subst hmiss
      rfl
  rw [hc]
  rfl

/-- Witness for C9 at a portrait record with no duration field. -/
theorem spec_C9_witness :
    vNoDuration.duration = none ∧ determine_video_type vNoDuration = "video" :=
  ⟨rfl, (spec_C9 vNoDuration (Or.inl rfl)).2 rfl (by decide)⟩

/-- Claim C10: after the pass, inserted plus skipped equals the number
of gazetteer entries. -/
theorem spec_C10 (pop_data : String → Option PopEntry) (ab : String)
    (gaz : List (String × GazPlace)) (t : List CityRow) :
    (import_state_data pop_data ab gaz t).1 + (import_state_data pop_data ab gaz t).2.1
      = gaz.length :=
  isd_conservation pop_data ab gaz t

/-- Claim C6: running the join pass a second time over the table it
produced yields the same inserted count, skipped count and table
contents — the upsert pass is idempotent. -/
theorem spec_C6 (pop_data : String → Option PopEntry) (ab : String)
    (gaz : List (String × GazPlace)) :
    import_state_data pop_data ab gaz ((import_state_data pop_data ab gaz []).2.2)
      = import_state_data pop_data ab gaz [] := by
  have h1 : (import_state_data pop_data ab gaz ((import_state_data pop_data ab gaz []).2.2)).1
      = (import_state_data pop_data ab gaz []).1 := by
    rw [isd_inserted, isd_inserted]
  have h2 : (import_state_data pop_data ab gaz ((import_state_data pop_data ab gaz []).2.2)).2.1
      = (import_state_data pop_data ab gaz []).2.1 := by
    have ha := isd_conservation pop_data ab gaz ((import_state_data pop_data ab gaz []).2.2)
    have hb := isd_conservation pop_data ab gaz []
    omega
  have h3 : (import_state_data pop_data ab gaz ((import_state_data pop_data ab gaz []).2.2)).2.2
      = (import_state_data pop_data ab gaz []).2.2 := by
    rw [isd_table, isd_table, foldl_ior_eq]
    have hfilter : ((joinedRows pop_data ab gaz).foldl insertOrReplace []).filter
        (fun r => decide (keyOf r ∉ (joinedRows pop_data ab gaz).map keyOf)) = [] := by
      rw [List.filter_eq_nil_iff]
      intro r hr
      rcases mem_foldl_ior (joinedRows pop_data ab gaz) [] r hr with hemp | hkey
      · exact absurd hemp (List.not_mem_nil r)
      · simp [hkey]
    rw [hfilter, List.nil_append]
  exact Prod.ext h1 (Prod.ext h2 h3)

/-- Claim C5: one gazetteer entry is joined through the last 5
characters of its identifier; a hit inserts exactly one combined row
and counts as inserted, a miss leaves the table unchanged and counts as
skipped, and neither aborts. -/
theorem spec_C5 (pop_data : String → Option PopEntry) (ab geoid : String) (g : GazPlace)
    (t : List CityRow) :
    (∀ p, pop_data (placeCodeOf geoid) = some p →
      import_state_data pop_data ab [(geoid, g)] t
          = (1, 0, insertOrReplace t (joinedRow ab geoid g p)) ∧
        (import_state_data pop_data ab [(geoid, g)] t).2.2.count (joinedRow ab geoid g p)
          = 1) ∧
    (pop_data (placeCodeOf geoid) = none →
      import_state_data pop_data ab [(geoid, g)] t = (0, 1, t)) := by
  constructor
  · intro p hp
    have heq : import_state_data pop_data ab [(geoid, g)] t
        = (1, 0, insertOrReplace t (joinedRow ab geoid g p)) := by
      unfold import_state_data
      rw [hp]
      rfl
    refine ⟨heq, ?_⟩
    rw [heq]
    show (insertOrReplace t (joinedRow ab geoid g p)).count (joinedRow ab geoid g p) = 1
    unfold insertOrReplace
    rw [List.count_append]
    have h0 : (t.filter (fun r => decide (¬(r.name = (joinedRow ab geoid g p).name
        ∧ r.state_abbrev = (joinedRow ab geoid g p).state_abbrev)))).count
        (joinedRow ab geoid g p) = 0 := by
      rw [List.count_eq_zero]
      intro hmem
      have hpred := List.of_mem_filter hmem
      rw [decide_eq_true_eq] at hpred
      exact hpred ⟨rfl, rfl⟩
    rw [h0]
    simp
  · intro hp
    unfold import_state_data
    rw [hp]
    rfl

/-- Witness for C5: a hit inserts the combined row and counts `(1, 0)`;
a miss counts `(0, 1)` and leaves the table unchanged. -/
theorem spec_C5_witness :
    import_state_data popFixture "CA" [("0601234", gazFixture)] []
        = (1, 0, insertOrReplace [] (joinedRow "CA" "0601234" gazFixture popEntryFixture)) ∧
      import_state_data popFixture "CA" [("0688888", gazFixture)] [] = (0, 1, []) :=
  ⟨((spec_C5 popFixture "CA" "0601234" gazFixture []).1 popEntryFixture (by decide)).1,
    (spec_C5 popFixture "CA" "0688888" gazFixture []).2 (by decide)⟩

/-- Claim C8: when a later insert shares the natural key
`(name, state_abbrev)` with an earlier one, the later row replaces it:
after the pass the table's keys are pairwise distinct, the last-inserted
row is present, and any row with its key is that row. -/
theorem spec_C8 (pop_data : String → Option PopEntry) (ab : String)
    (xs : List (String × GazPlace)) (geoid : String) (g : GazPlace) (p : PopEntry)
    (hp : pop_data (placeCodeOf geoid) = some p) :
    ((import_state_data pop_data ab (xs ++ [(geoid, g)]) []).2.2.map keyOf).Nodup ∧
      joinedRow ab geoid g p ∈ (import_state_data pop_data ab (xs ++ [(geoid, g)]) []).2.2 ∧
      ∀ r ∈ (import_state_data pop_data ab (xs ++ [(geoid, g)]) []).2.2,
        keyOf r = (g.name, ab) → r = joinedRow ab geoid g p := by
  rw [isd_table]
  rw [joinedRows_append]
  have hsing : joinedRows pop_data ab [(geoid, g)] = [joinedRow ab geoid g p] := by
    unfold joinedRows
    rw [hp]
    rfl
  rw [hsing, List.foldl_append]
  rw [show ([joinedRow ab geoid g p]).foldl insertOrReplace
      ((joinedRows pop_data ab xs).foldl insertOrReplace [])
    = insertOrReplace ((joinedRows pop_data ab xs).foldl insertOrReplace [])
        (joinedRow ab geoid g p) from rfl]
  refine ⟨?_, ?_, ?_⟩
  · exact ior_keys_nodup _ _ (foldl_ior_keys_nodup (joinedRows pop_data ab xs) [] (by simp))
  · exact List.mem_append_right _ (List.mem_singleton_self _)
  · intro r hr hk
    rcases List.mem_append.mp hr with hf | hs
    · exfalso
      have hpred := List.of_mem_filter hf
      rw [decide_eq_true_eq] at hpred
      apply hpred
      exact ⟨congrArg Prod.fst hk, congrArg Prod.snd hk⟩
    · rw [List.mem_singleton] at hs
      exact hs

/-- Witness for C8: two gazetteer entries joining to the same
`(name, state_abbrev)` key leave a key-distinct table containing the
later row. -/
theorem spec_C8_witness :
    ((import_state_data popFixture "CA"
        ([("0501234", gazFixture)] ++ [("0601234", gazFixture)]) []).2.2.map keyOf).Nodup ∧
      joinedRow "CA" "0601234" gazFixture popEntryFixture
        ∈ (import_state_data popFixture "CA"
            ([("0501234", gazFixture)] ++ [("0601234", gazFixture)]) []).2.2 :=
  ⟨(spec_C8 popFixture "CA" [("0501234", gazFixture)] "0601234" gazFixture popEntryFixture
      (by decide)).1,
    (spec_C8 popFixture "CA" [("0501234", gazFixture)] "0601234" gazFixture popEntryFixture
      (by decide)).2.1⟩

/-- Claim C7: a population figure that does not parse as an integer is
loaded as `none` for that reference year; the row is still loaded and
the pass does not fail. -/
theorem spec_C7 (rows : List PopRow) (ab : String) (r : PopRow)
    (hsum : r.SUMLEV = "162") :
    (parseIntOpt r.CENSUS2010POP = none →
      load_population (rows ++ [r]) ab r.PLACE
        = some ⟨r.NAME, none, parseIntOpt r.POPESTIMATE2020, ab⟩) ∧
    (parseIntOpt r.POPESTIMATE2020 = none →
      load_population (rows ++ [r]) ab r.PLACE
        = some ⟨r.NAME, parseIntOpt r.CENSUS2010POP, none, ab⟩) := by
  constructor
  · intro h10
    rw [load_population_last rows ab r hsum, h10]
  · intro h20
    rw [load_population_last rows ab r hsum, h20]

/-- Witness for C7: the Census placeholder `(X)` in the 2010 figure
loads as `none` while the row itself is present. -/
theorem spec_C7_witness :
    popRowFixture.SUMLEV = "162" ∧
      parseIntOpt popRowFixture.CENSUS2010POP = none ∧
      load_population ([] ++ [popRowFixture]) "CA" popRowFixture.PLACE
        = some ⟨popRowFixture.NAME, none, parseIntOpt popRowFixture.POPESTIMATE2020, "CA"⟩ :=
  ⟨rfl, by decide, (spec_C7 [] "CA" popRowFixture rfl).1 (by decide)⟩
